import Mathlib

set_option maxRecDepth 2000

/-!
Shallow embedding of the Credit-Score-Classification repository's synthetic
data generator (src/generate_data.py) and of the claim-relevant part of the
web layer's input preparation (src/app.py, prepare_input_data).

Modelling conventions.
The Python code draws from numpy's global pseudo-random stream, seeded once at
module import.  The embedding makes that ambient stream explicit: a draw reads
the current state (a natural number) and the state then advances by one LCG
step (npStep).  Each numpy primitive is modelled as a total function of the
state whose RANGE is faithful to the primitive (randint's half-open interval,
choice's support, uniform's half-open interval, positivity of the log-normal);
the exact densities (log-normal, Poisson, Gaussian, the exponentially decaying
weight vector passed as the p argument of np.random.choice) involve real
transcendentals and shape only the distribution, never the support, so they
are not reproduced inside ℚ.  Python floats are modelled as exact rationals.
The faker library has its own seeded stream, modelled as a second state
component advanced the same way.
-/

/-- One step of the modelled pseudo-random stream (a standard LCG). -/
def lcg (s : Nat) : Nat := (12345 + 1103515245 * s) % 2147483648

/-- Advance the ambient random state by one draw. -/
def npStep (s : Nat) : Nat := lcg s

/-- A value in [0, 1) read from the current state; models a unit uniform draw. -/
def unit6 (s : Nat) : ℚ := ((lcg s % 1000000 : Nat) : ℚ) / 1000000

/-- np.random.randint(lo, hi): an integer in [lo, hi). -/
def npRandint (lo hi : Nat) (s : Nat) : Nat := lo + lcg s % (hi - lo)

/-- np.random.uniform(a, b): a rational in [a, b) for a < b. -/
def npUniform (a b : ℚ) (s : Nat) : ℚ := a + (b - a) * unit6 s

/-- np.random.lognormal(10, 1): a strictly positive draw.  The log-normal
density is transcendental; the model keeps its support (0, ∞). -/
def npLognormal (s : Nat) : ℚ := ((lcg s % 10000000 : Nat) + 1 : ℚ) / 100

/-- np.random.poisson(2): a natural number.  The Poisson weights shape only
the distribution, never the support. -/
def npPoisson2 (s : Nat) : Nat := lcg s % 12

/-- np.random.normal(0, 10): a rational that may be negative.  The Gaussian
density is transcendental; the model keeps a sign-symmetric support. -/
def npNormal10 (s : Nat) : ℚ := (((lcg s % 2001 : Nat) : ℚ) - 1000) / 25

/-- np.random.random(): a unit uniform draw in [0, 1). -/
def npRandom (s : Nat) : ℚ := unit6 s

/-- np.random.choice(options) and np.random.choice(options, p=weights): an
element of the option list.  A probability vector p (including the normalized
exponential-decay weights used for the delay draw) reweights the outcomes but
never changes the support, so the model selects an arbitrary stream-determined
index. -/
def npChoice {α : Type} (l : List α) (d : α) (s : Nat) : α :=
  l.getD (lcg s % l.length) d

/-- fake.name(): the faker stream's next name string. -/
def fakeName (s : Nat) : String := "Name_" ++ Nat.repr (lcg s)

/-- fake.ssn(): the faker stream's next SSN string. -/
def fakeSSN (s : Nat) : String := "SSN_" ++ Nat.repr (lcg s)

/-- Python's round to an integer (banker's rounding: ties go to the even
neighbour), on exact rationals. -/
def pyRoundInt (q : ℚ) : ℤ :=
  if q - (⌊q⌋ : ℚ) < 1/2 then ⌊q⌋
  else if 1/2 < q - (⌊q⌋ : ℚ) then ⌊q⌋ + 1
  else if ⌊q⌋ % 2 = 0 then ⌊q⌋ else ⌊q⌋ + 1

/-- Python's round(x, 2): round to two decimal places. -/
def round2 (x : ℚ) : ℚ := (pyRoundInt (x * 100) : ℚ) / 100

/-- Lowercase digit character for one base-≤16 digit, as produced by Python's
d and x format conversions. -/
def digitChar (d : Nat) : Char := Char.ofNat (if d < 10 then 48 + d else 87 + d)

/-- Numeric value of a lowercase base-≤16 digit character. -/
def digitVal (c : Char) : Nat := if 97 ≤ c.toNat then c.toNat - 87 else c.toNat - 48

/-- Zero-pad a digit-character list on the left to width w, as Python's 06x /
08d format specifications do. -/
def padString (w : Nat) (ds : List Char) : List Char :=
  List.replicate (w - ds.length) (Char.ofNat 48) ++ ds

/-- The base-b digit characters of n, most significant first. -/
def natDigitsChars (b n : Nat) : List Char := ((Nat.digits b n).reverse).map digitChar

/-- Python format spec 0{w}{base conversion}: n in base b, zero-padded to
width w. -/
def fmtPad (b w n : Nat) : String := String.mk (padString w (natDigitsChars b n))

/-- The ID field of row i: CUS_0x followed by i+1 zero-padded to six
lowercase hex digits. -/
def mkID (i : Nat) : String := "CUS_0x" ++ fmtPad 16 6 (i + 1)

/-- The Customer_ID field of row i: CUS_ followed by i+1 zero-padded to eight
decimal digits. -/
def mkCustomerID (i : Nat) : String := "CUS_" ++ fmtPad 10 8 (i + 1)

/-- Base-b value of a digit-character list, most significant first. -/
def parseNum (b : Nat) (cs : List Char) : Nat :=
  cs.foldl (fun a c => b * a + digitVal c) 0

/-- Month names, in the order listed in the source. -/
def monthNames : List String :=
  ["January", "February", "March", "April", "May", "June",
   "July", "August", "September", "October", "November", "December"]

/-- Occupation category set, in source order. -/
def occupationChoices : List String :=
  ["Engineer", "Teacher", "Doctor", "Lawyer", "Manager", "Sales",
   "Student", "Artist", "Entrepreneur", "Accountant", "Nurse", "Other"]

/-- Payment-behaviour category set, in source order. -/
def paymentBehaviourChoices : List String :=
  ["High_spent_Small_value_payments",
   "Low_spent_Large_value_payments",
   "High_spent_Medium_value_payments",
   "Low_spent_Medium_value_payments",
   "High_spent_Large_value_payments",
   "Low_spent_Small_value_payments"]

/-- Loan-type category set, in source order. -/
def loanTypeChoices : List String :=
  ["Auto Loan", "Credit-Builder Loan", "Personal Loan",
   "Home Equity Loan", "Mortgage Loan", "Student Loan",
   "Debt Consolidation Loan", "Payday Loan"]

/-- The credit_score_factors list of generate_credit_score_data: five
sub-scores, with the two division guards of the source. -/
def credit_score_factors (credit_history_age delay_from_due_date : Nat)
    (outstanding_debt annual_income monthly_balance monthly_inhand_salary : ℚ)
    (num_delayed_payments : Nat) : List ℚ :=
  [((credit_history_age : ℚ) / 300) * 0.3,
   (1 - (delay_from_due_date : ℚ) / 60) * 0.25,
   if annual_income > 0 then (1 - outstanding_debt / annual_income) * 0.2 else 0,
   if monthly_inhand_salary > 0 then (monthly_balance / monthly_inhand_salary) * 0.15 else 0,
   (1 - (num_delayed_payments : ℚ) / 10) * 0.1]

/-- The numeric credit score: the factor sum scaled by 100 plus the noise
draw that the source adds afterwards. -/
def credit_score_numeric (credit_history_age delay_from_due_date : Nat)
    (outstanding_debt annual_income monthly_balance monthly_inhand_salary : ℚ)
    (num_delayed_payments : Nat) (noise : ℚ) : ℚ :=
  (credit_score_factors credit_history_age delay_from_due_date outstanding_debt
      annual_income monthly_balance monthly_inhand_salary num_delayed_payments).sum * 100
    + noise

/-- Categorize the numeric credit score, exactly as the source's if/elif/else
chain. -/
def categorizeCreditScore (x : ℚ) : String :=
  if x ≥ 70 then "Good" else if x ≥ 40 then "Standard" else "Poor"

/-- The label step of the source: categorize, then with probability 0.1
(np.random.random() < 0.1) replace the label by a uniform draw from
Good/Standard/Poor.  The replacement draw advances the stream only when the
condition holds, as in Python. -/
def creditScoreLabel (x : ℚ) (s : Nat) : String × Nat :=
  if npRandom s < 0.1 then
    (npChoice ["Good", "Standard", "Poor"] "Poor" (npStep s), npStep (npStep s))
  else (categorizeCreditScore x, npStep s)

/-- One Synthetic Record: the 28 fields of the source's record dict, in the
dict's insertion order.  The source column Credit_Utilization_Ratio is held in
the Lean field Credit_Utilization; the column-name list below keeps the
source spelling. -/
structure Record where
  ID : String
  Customer_ID : String
  Month : String
  Name : String
  Age : Nat
  SSN : String
  Occupation : String
  Annual_Income : ℚ
  Monthly_Inhand_Salary : ℚ
  Num_Bank_Accounts : Nat
  Num_Credit_Card : Nat
  Interest_Rate : ℚ
  Num_of_Loan : Nat
  Type_of_Loan : String
  Delay_from_due_date : Nat
  Num_of_Delayed_Payment : Nat
  Changed_Credit_Limit : ℚ
  Num_Credit_Inquiries : Nat
  Credit_Mix : String
  Outstanding_Debt : ℚ
  Credit_Utilization : ℚ
  Credit_History_Age : Nat
  Payment_of_Min_Amount : String
  Total_EMI_per_month : ℚ
  Amount_invested_monthly : ℚ
  Payment_Behaviour : String
  Monthly_Balance : ℚ
  Credit_Score : String
  deriving Inhabited

/-- The fixed column set of the Synthetic Record, in the record dict's
insertion order (the order pandas preserves). -/
def recordColumns : List String :=
  ["ID", "Customer_ID", "Month", "Name", "Age", "SSN", "Occupation",
   "Annual_Income", "Monthly_Inhand_Salary", "Num_Bank_Accounts",
   "Num_Credit_Card", "Interest_Rate", "Num_of_Loan", "Type_of_Loan",
   "Delay_from_due_date", "Num_of_Delayed_Payment", "Changed_Credit_Limit",
   "Num_Credit_Inquiries", "Credit_Mix", "Outstanding_Debt",
   "Credit_Utilization_Ratio", "Credit_History_Age", "Payment_of_Min_Amount",
   "Total_EMI_per_month", "Amount_invested_monthly", "Payment_Behaviour",
   "Monthly_Balance", "Credit_Score"]

/-- The ambient global random state: numpy's stream and faker's stream.
Python's random module is also seeded at import but is never drawn from by
the generator, so it carries no information here. -/
structure GState where
  np : Nat
  fk : Nat

/-- Module-import seeding with a given seed value (np.random.seed(seed),
Faker.seed(seed)): both streams start at the seed. -/
def stateFromSeed (seed : Nat) : GState := ⟨seed, seed⟩

/-- The module seeds every stream with 42 at import time. -/
def initState : GState := stateFromSeed 42

/-- The ambient stream state after k further draws. -/
def npS : Nat → Nat → Nat
  | 0, s => s
  | k + 1, s => npStep (npS k s)

/-- The annual_income draw of one loop iteration, from the iteration's
starting numpy state s: the source's second draw (np.random.lognormal). -/
def annualIncome_draw (s : Nat) : ℚ := npLognormal (npS 1 s)

/-- monthly_inhand_salary = annual_income / 12 * uniform(0.8, 1.2); the
uniform multiplier is the source's draw number 5 (0-based) of the
iteration. -/
def monthlySalary_draw (s : Nat) : ℚ :=
  annualIncome_draw s / 12 * npUniform 0.8 1.2 (npS 5 s)

/-- outstanding_debt = annual_income * uniform(0, 2); the multiplier is draw
number 10 of the iteration. -/
def outstandingDebt_draw (s : Nat) : ℚ :=
  annualIncome_draw s * npUniform 0 2 (npS 10 s)

/-- monthly_balance = monthly_inhand_salary * uniform(-0.5, 0.5); the
multiplier is draw number 11 of the iteration. -/
def monthlyBalance_draw (s : Nat) : ℚ :=
  monthlySalary_draw s * npUniform (-0.5) 0.5 (npS 11 s)

/-- The iteration's numeric credit score: factors built from
credit_history_age (draw 4), delay_from_due_date (draw 8), the derived debt,
income, balance and salary, and num_delayed_payments (draw 9), with Gaussian
noise (draw 16). -/
def score_draw (s : Nat) : ℚ :=
  credit_score_numeric (npRandint 6 300 (npS 4 s)) (npChoice (List.range 60) 0 (npS 8 s))
    (outstandingDebt_draw s) (annualIncome_draw s) (monthlyBalance_draw s)
    (monthlySalary_draw s) (npPoisson2 (npS 9 s)) (npNormal10 (npS 16 s))

/-- The categorize-then-maybe-override step applied to the iteration's score:
the random() comparison is draw 17, the optional uniform relabel draw 18. -/
def labelPair (s : Nat) : String × Nat := creditScoreLabel (score_draw s) (npS 17 s)

/-- One loop iteration of generate_credit_score_data, with the stream
positions spelled out in the source's draw order.  Loop-body draws (0-based):
0 age, 1 annual_income, 2 num_bank_accounts, 3 num_credit_cards,
4 credit_history_age, 5 the salary multiplier, 6 interest_rate,
7 num_of_loans, 8 delay_from_due_date, 9 num_delayed_payments,
10 the debt multiplier, 11 the balance multiplier, 12 occupation,
13 credit_mix, 14 payment_of_min_amount, 15 payment_behaviour, 16 the score
noise, 17 the relabel coin (18 the optional relabel).  The record-dict draws
then continue from the post-label state, in dict-key order: 0 Month,
1 Type_of_Loan, 2 Changed_Credit_Limit, 3 Num_Credit_Inquiries,
4 Credit_Utilization_Ratio, 5 the EMI multiplier, 6 the invested multiplier,
so the iteration leaves the numpy stream 7 draws past the label.  The faker
stream serves Name (draw 0) and SSN (draw 1). -/
def genRecord (i : Nat) (st : GState) : Record × GState :=
  ({ ID := mkID i,
     Customer_ID := mkCustomerID i,
     Month := npChoice monthNames "January" (labelPair st.np).2,
     Name := fakeName st.fk,
     Age := npRandint 18 80 st.np,
     SSN := fakeSSN (npS 1 st.fk),
     Occupation := npChoice occupationChoices "Other" (npS 12 st.np),
     Annual_Income := round2 (annualIncome_draw st.np),
     Monthly_Inhand_Salary := round2 (monthlySalary_draw st.np),
     Num_Bank_Accounts := npChoice [1, 2, 3, 4, 5] 1 (npS 2 st.np),
     Num_Credit_Card := npChoice [0, 1, 2, 3, 4, 5] 0 (npS 3 st.np),
     Interest_Rate := round2 (npUniform 5 25 (npS 6 st.np)),
     Num_of_Loan := npChoice [0, 1, 2, 3, 4] 0 (npS 7 st.np),
     Type_of_Loan := npChoice loanTypeChoices "Auto Loan" (npS 1 (labelPair st.np).2),
     Delay_from_due_date := npChoice (List.range 60) 0 (npS 8 st.np),
     Num_of_Delayed_Payment := npPoisson2 (npS 9 st.np),
     Changed_Credit_Limit := npUniform (-50) 100 (npS 2 (labelPair st.np).2),
     Num_Credit_Inquiries := npRandint 0 10 (npS 3 (labelPair st.np).2),
     Credit_Mix := npChoice ["Good", "Standard", "Bad"] "Standard" (npS 13 st.np),
     Outstanding_Debt := round2 (outstandingDebt_draw st.np),
     Credit_Utilization := round2 (npUniform 0 100 (npS 4 (labelPair st.np).2)),
     Credit_History_Age := npRandint 6 300 (npS 4 st.np),
     Payment_of_Min_Amount := npChoice ["Yes", "No"] "Yes" (npS 14 st.np),
     Total_EMI_per_month := round2 (monthlySalary_draw st.np * npUniform 0 0.6 (npS 5 (labelPair st.np).2)),
     Amount_invested_monthly := round2 (monthlySalary_draw st.np * npUniform 0 0.3 (npS 6 (labelPair st.np).2)),
     Payment_Behaviour := npChoice paymentBehaviourChoices "Low_spent_Small_value_payments" (npS 15 st.np),
     Monthly_Balance := round2 (monthlyBalance_draw st.np),
     Credit_Score := (labelPair st.np).1 }, ⟨npS 7 (labelPair st.np).2, npS 2 st.fk⟩)

/-- The generation loop: records for indices i0, i0+1, ..., threading the
ambient state. -/
def generateAux : Nat → Nat → GState → List Record × GState
  | 0, _, st => ([], st)
  | n + 1, i, st =>
    ((genRecord i st).1 :: (generateAux n (i + 1) (genRecord i st).2).1,
     (generateAux n (i + 1) (genRecord i st).2).2)

/-- A pandas DataFrame, as used here: a column-name list and the row list. -/
structure DataFrame where
  cols : List String
  rows : List Record

/-- pd.DataFrame(data) on a list of equal-keyed record dicts: the columns are
the union of the records' keys in insertion order, so a nonempty list yields
the 28 fixed columns and the empty list yields no columns at all. -/
def pdDataFrame (rs : List Record) : DataFrame :=
  match rs with
  | [] => { cols := [], rows := [] }
  | r :: rest => { cols := recordColumns, rows := r :: rest }

/-- generate_credit_score_data(n_samples), with the ambient global random
state made explicit: the assembled DataFrame and the advanced state. -/
def generate_credit_score_data (n_samples : Nat) (st : GState) : DataFrame × GState :=
  let g := generateAux n_samples 0 st
  (pdDataFrame g.1, g.2)

/-- One fresh-process run of the assembler: seed the streams, then generate. -/
def runAssembler (seed n : Nat) : DataFrame := (generate_credit_score_data n (stateFromSeed seed)).1

/-- Field-by-field agreement of two Synthetic Records: every one of the 28
fields coincides. -/
def sameFields (r r' : Record) : Prop :=
  r.ID = r'.ID ∧ r.Customer_ID = r'.Customer_ID ∧ r.Month = r'.Month ∧
  r.Name = r'.Name ∧ r.Age = r'.Age ∧ r.SSN = r'.SSN ∧
  r.Occupation = r'.Occupation ∧ r.Annual_Income = r'.Annual_Income ∧
  r.Monthly_Inhand_Salary = r'.Monthly_Inhand_Salary ∧
  r.Num_Bank_Accounts = r'.Num_Bank_Accounts ∧
  r.Num_Credit_Card = r'.Num_Credit_Card ∧ r.Interest_Rate = r'.Interest_Rate ∧
  r.Num_of_Loan = r'.Num_of_Loan ∧ r.Type_of_Loan = r'.Type_of_Loan ∧
  r.Delay_from_due_date = r'.Delay_from_due_date ∧
  r.Num_of_Delayed_Payment = r'.Num_of_Delayed_Payment ∧
  r.Changed_Credit_Limit = r'.Changed_Credit_Limit ∧
  r.Num_Credit_Inquiries = r'.Num_Credit_Inquiries ∧
  r.Credit_Mix = r'.Credit_Mix ∧ r.Outstanding_Debt = r'.Outstanding_Debt ∧
  r.Credit_Utilization = r'.Credit_Utilization ∧
  r.Credit_History_Age = r'.Credit_History_Age ∧
  r.Payment_of_Min_Amount = r'.Payment_of_Min_Amount ∧
  r.Total_EMI_per_month = r'.Total_EMI_per_month ∧
  r.Amount_invested_monthly = r'.Amount_invested_monthly ∧
  r.Payment_Behaviour = r'.Payment_Behaviour ∧
  r.Monthly_Balance = r'.Monthly_Balance ∧ r.Credit_Score = r'.Credit_Score

/-- A file system: the set of existing directories and the written files,
paths as component lists. -/
structure FileSys where
  dirs : List (List String)
  files : List (List String × String)

/-- Path("data/raw").mkdir(parents=True, exist_ok=True): create the directory
and every ancestor; existing directories are left alone (exist_ok). -/
def mkdirParents (fs : FileSys) (p : List String) : FileSys :=
  { fs with dirs := ((List.range (p.length + 1)).map (fun k => p.take k)) ++ fs.dirs }

/-- df.to_csv(path): write the file, which the OS refuses when the parent
directory does not exist. -/
def toCsvWrite (fs : FileSys) (p : List String) (content : String) : Option FileSys :=
  if p.dropLast ∈ fs.dirs then some { fs with files := (p, content) :: fs.files } else none

/-- Serialized artifact of a DataFrame; the claim under study concerns only
directory handling, so the content is the header joined by commas. -/
def csvOf (df : DataFrame) : String := String.intercalate "," df.cols

/-- Physical I/O faults outside the script's control (permissions, disk):
whether mkdir and the file write physically fail. -/
structure IOFaults where
  mkdirFault : Bool
  writeFault : Bool

/-- The script's __main__ block: generate, mkdir -p the output directory,
write the CSV.  There is no try/except, so any I/O failure propagates as a
fatal error; there is no retry or partial-success path. -/
def mainScript (env : IOFaults) (fs : FileSys) (n : Nat) (st : GState) : Except String FileSys :=
  let df := (generate_credit_score_data n st).1
  if env.mkdirFault then Except.error "mkdir failed" else
  let fs1 := mkdirParents fs ["data", "raw"]
  if env.writeFault then Except.error "write failed" else
  match toCsvWrite fs1 ["data", "raw", "credit_score_data.csv"] (csvOf df) with
  | some fs2 => Except.ok fs2
  | none => Except.error "missing directory"

/-- The categorical columns prepare_input_data encodes, in source order. -/
def categorical_columns : List String :=
  ["Occupation", "Credit_Mix", "Payment_of_Min_Amount", "Payment_Behaviour"]

/-- A prepared cell: either an encoded integer code or the untouched string. -/
inductive CellVal where
  | num (code : Int)
  | str (s : String)
  deriving DecidableEq

/-- One column of prepare_input_data's categorical-encoding pass: a fitted
encoder maps a seen category to its code and raises ValueError (here: none)
on an unseen one; the except-branch silently writes the neutral code 0.  A
column with no fitted encoder is left as the submitted string. -/
def encode_cell (enc : Option (String → Option Int)) (v : String) : CellVal :=
  match enc with
  | some e =>
    match e v with
    | some code => CellVal.num code
    | none => CellVal.num 0
  | none => CellVal.str v

/-- prepare_input_data's categorical-encoding stage over the four categorical
columns (the later scaler stage touches only numeric columns and is outside
the claim under study): the prepared value of every categorical column. -/
def prepare_input_data (prep : String → Option (String → Option Int))
    (row : String → String) : List (String × CellVal) :=
  categorical_columns.map (fun c => (c, encode_cell (prep c) (row c)))

/-! Helper lemmas about the random primitives. -/

theorem unit6_nonneg (s : Nat) : 0 ≤ unit6 s := by
  unfold unit6
  positivity

theorem unit6_lt_one (s : Nat) : unit6 s < 1 := by
  unfold unit6
  rw [div_lt_one (by norm_num)]
  exact_mod_cast Nat.mod_lt _ (by norm_num)

theorem npRandint_mem (lo hi s : Nat) (h : lo < hi) :
    lo ≤ npRandint lo hi s ∧ npRandint lo hi s < hi := by
  unfold npRandint
  have := Nat.mod_lt (lcg s) (show 0 < hi - lo by omega)
  omega

theorem npUniform_mem (a b : ℚ) (s : Nat) (h : a < b) :
    a ≤ npUniform a b s ∧ npUniform a b s < b := by
  have h0 := unit6_nonneg s
  have h1 := unit6_lt_one s
  unfold npUniform
  constructor
  · nlinarith
  · nlinarith

theorem npChoice_mem {α : Type} (l : List α) (d : α) (s : Nat) (h : l ≠ []) :
    npChoice l d s ∈ l := by
  have hpos : 0 < l.length := List.length_pos.mpr h
  have hlt : lcg s % l.length < l.length := Nat.mod_lt _ hpos
  unfold npChoice
  rw [List.getD_eq_getElem l d hlt]
  exact List.getElem_mem hlt

theorem pyRoundInt_bounds (a b : ℤ) (q : ℚ) (h1 : (a : ℚ) ≤ q) (h2 : q < (b : ℚ)) :
    a ≤ pyRoundInt q ∧ pyRoundInt q ≤ b := by
  have hf1 : a ≤ ⌊q⌋ := Int.le_floor.mpr h1
  have hf2 : ⌊q⌋ < b := Int.floor_lt.mpr h2
  unfold pyRoundInt
  split_ifs <;> omega

theorem round2_interest (x : ℚ) (h1 : 5 ≤ x) (h2 : x < 25) :
    5 ≤ round2 x ∧ round2 x ≤ 25 := by
  have h := pyRoundInt_bounds 500 2500 (x * 100) (by push_cast; linarith) (by push_cast; linarith)
  unfold round2
  constructor
  · rw [le_div_iff₀ (by norm_num : (0:ℚ) < 100)]
    have hc : ((500:ℤ) : ℚ) ≤ (pyRoundInt (x * 100) : ℚ) := by exact_mod_cast h.1
    push_cast at hc ⊢
    linarith
  · rw [div_le_iff₀ (by norm_num : (0:ℚ) < 100)]
    have hc : ((pyRoundInt (x * 100) : ℤ) : ℚ) ≤ ((2500:ℤ) : ℚ) := by exact_mod_cast h.2
    push_cast at hc ⊢
    linarith

theorem interest_round_mem (s : Nat) :
    5 ≤ round2 (npUniform 5 25 s) ∧ round2 (npUniform 5 25 s) ≤ 25 :=
  round2_interest _ (npUniform_mem 5 25 s (by norm_num)).1 (npUniform_mem 5 25 s (by norm_num)).2

/-! Helper lemmas for the zero-padded identifier formats. -/

theorem digitVal_digitChar : ∀ d : Nat, d < 16 → digitVal (digitChar d) = d := by decide

theorem foldl_replicate_zero (b k : Nat) :
    List.foldl (fun a c => b * a + digitVal c) 0 (List.replicate k (Char.ofNat 48)) = 0 := by
  induction k with
  | zero => rfl
  | succ k ih =>
    rw [List.replicate_succ, List.foldl_cons]
    have h0 : digitVal (Char.ofNat 48) = 0 := by decide
    simpa [h0] using ih

theorem foldl_digits_eq (b : Nat) :
    ∀ (l : List Nat), (∀ d ∈ l, d < 16) → ∀ a : Nat,
      List.foldl (fun x c => b * x + digitVal c) a ((l.reverse).map digitChar) =
        a * b ^ l.length + Nat.ofDigits b l := by
  intro l
  induction l with
  | nil => intro _ a; simp [Nat.ofDigits_nil]
  | cons d t ih =>
    intro hl a
    rw [List.reverse_cons, List.map_append, List.foldl_append]
    rw [ih (fun x hx => hl x (List.mem_cons_of_mem d hx)) a]
    simp only [List.map_cons, List.map_nil, List.foldl_cons, List.foldl_nil]
    rw [digitVal_digitChar d (hl d (List.mem_cons_self d t)), Nat.ofDigits_cons]
    simp only [List.length_cons]
    ring

theorem parseNum_fmtPad (b w n : Nat) (hb : 1 < b) (hb16 : b ≤ 16) :
    parseNum b (padString w (natDigitsChars b n)) = n := by
  unfold parseNum padString natDigitsChars
  rw [List.foldl_append, foldl_replicate_zero]
  rw [foldl_digits_eq b (Nat.digits b n)
      (fun d hd => lt_of_lt_of_le (Nat.digits_lt_base hb hd) hb16) 0]
  simp [Nat.ofDigits_digits]

theorem mkID_inj {m n : Nat} (h : mkID m = mkID n) : m = n := by
  have hd : ("CUS_0x").data ++ (fmtPad 16 6 (m + 1)).data =
      ("CUS_0x").data ++ (fmtPad 16 6 (n + 1)).data := by
    have hc := congrArg String.data h
    simp only [mkID, String.data_append] at hc
    exact hc
  have h2 : padString 6 (natDigitsChars 16 (m + 1)) = padString 6 (natDigitsChars 16 (n + 1)) :=
    List.append_cancel_left hd
  have h3 : parseNum 16 (padString 6 (natDigitsChars 16 (m + 1))) =
      parseNum 16 (padString 6 (natDigitsChars 16 (n + 1))) := congrArg (parseNum 16) h2
  rw [parseNum_fmtPad 16 6 (m + 1) (by norm_num) (by norm_num),
      parseNum_fmtPad 16 6 (n + 1) (by norm_num) (by norm_num)] at h3
  omega

theorem mkCustomerID_inj {m n : Nat} (h : mkCustomerID m = mkCustomerID n) : m = n := by
  have hd : ("CUS_").data ++ (fmtPad 10 8 (m + 1)).data =
      ("CUS_").data ++ (fmtPad 10 8 (n + 1)).data := by
    have hc := congrArg String.data h
    simp only [mkCustomerID, String.data_append] at hc
    exact hc
  have h2 : padString 8 (natDigitsChars 10 (m + 1)) = padString 8 (natDigitsChars 10 (n + 1)) :=
    List.append_cancel_left hd
  have h3 : parseNum 10 (padString 8 (natDigitsChars 10 (m + 1))) =
      parseNum 10 (padString 8 (natDigitsChars 10 (n + 1))) := congrArg (parseNum 10) h2
  rw [parseNum_fmtPad 10 8 (m + 1) (by norm_num) (by norm_num),
      parseNum_fmtPad 10 8 (n + 1) (by norm_num) (by norm_num)] at h3
  omega

/-! Helper lemmas about the generation loop. -/

theorem generateAux_length : ∀ (n i : Nat) (st : GState), (generateAux n i st).1.length = n := by
  intro n
  induction n with
  | zero => intro i st; rfl
  | succ n ih => intro i st; simp [generateAux, ih]

theorem generateAux_forall (P : Record → Prop) (hP : ∀ (i : Nat) (st : GState), P (genRecord i st).1) :
    ∀ (n i : Nat) (st : GState), ∀ r ∈ (generateAux n i st).1, P r := by
  intro n
  induction n with
  | zero => intro i st r hr; simp [generateAux] at hr
  | succ n ih =>
    intro i st r hr
    simp only [generateAux, List.mem_cons] at hr
    rcases hr with hr | hr
    · rw [hr]; exact hP i st
    · exact ih (i + 1) (genRecord i st).2 r hr

theorem generateAux_getD (d : Record) :
    ∀ (n j i : Nat) (st : GState), j < n →
      ∃ st', (generateAux n i st).1.getD j d = (genRecord (i + j) st').1 := by
  intro n
  induction n with
  | zero => intro j i st h; omega
  | succ n ih =>
    intro j i st h
    cases j with
    | zero => exact ⟨st, by simp [generateAux]⟩
    | succ j =>
      obtain ⟨st', hst'⟩ := ih j (i + 1) (genRecord i st).2 (by omega)
      refine ⟨st', ?_⟩
      have harith : i + (j + 1) = (i + 1) + j := by omega
      rw [harith]
      simpa [generateAux, List.getD_cons_succ] using hst'

/-! Facts about the fields of one generated record.  Proofs rewrite with the
definition (simp only) rather than relying on definitional unfolding, because
whole-number normalization of a stuck LCG chain is expensive. -/

theorem genRecord_ID (i : Nat) (st : GState) : (genRecord i st).1.ID = mkID i := by
  simp only [genRecord]

theorem genRecord_Customer_ID (i : Nat) (st : GState) :
    (genRecord i st).1.Customer_ID = mkCustomerID i := by
  simp only [genRecord]

theorem creditScoreLabel_mem (x : ℚ) (s : Nat) :
    (creditScoreLabel x s).1 ∈ ["Poor", "Standard", "Good"] := by
  unfold creditScoreLabel
  split_ifs with h
  · have hm := npChoice_mem ["Good", "Standard", "Poor"] "Poor" (npStep s) (by simp)
    have hsub : ∀ v ∈ (["Good", "Standard", "Poor"] : List String),
        v ∈ (["Poor", "Standard", "Good"] : List String) := by decide
    exact hsub _ hm
  · unfold categorizeCreditScore
    split_ifs <;> simp

theorem labelPair_fst_mem (s : Nat) : (labelPair s).1 ∈ ["Poor", "Standard", "Good"] := by
  simp only [labelPair]
  exact creditScoreLabel_mem (score_draw s) (npS 17 s)

theorem genRecord_Credit_Score_mem (i : Nat) (st : GState) :
    (genRecord i st).1.Credit_Score ∈ ["Poor", "Standard", "Good"] := by
  simp only [genRecord]
  exact labelPair_fst_mem st.np

theorem bank_account_bounds (s : Nat) :
    1 ≤ npChoice [1, 2, 3, 4, 5] 1 s ∧ npChoice [1, 2, 3, 4, 5] 1 s ≤ 5 := by
  have hb : ∀ v ∈ ([1, 2, 3, 4, 5] : List Nat), 1 ≤ v ∧ v ≤ 5 := by decide
  exact hb _ (npChoice_mem [1, 2, 3, 4, 5] 1 s (by simp))

theorem credit_card_bound (s : Nat) : npChoice [0, 1, 2, 3, 4, 5] 0 s ≤ 5 := by
  have hb : ∀ v ∈ ([0, 1, 2, 3, 4, 5] : List Nat), v ≤ 5 := by decide
  exact hb _ (npChoice_mem [0, 1, 2, 3, 4, 5] 0 s (by simp))

theorem delay_lt (s : Nat) : npChoice (List.range 60) 0 s < 60 :=
  List.mem_range.mp (npChoice_mem (List.range 60) 0 s (by simp [List.range_eq_nil]))

theorem genRecord_ranges (i : Nat) (st : GState) :
    18 ≤ (genRecord i st).1.Age ∧ (genRecord i st).1.Age < 80 ∧
    1 ≤ (genRecord i st).1.Num_Bank_Accounts ∧ (genRecord i st).1.Num_Bank_Accounts ≤ 5 ∧
    (genRecord i st).1.Num_Credit_Card ≤ 5 ∧
    5 ≤ (genRecord i st).1.Interest_Rate ∧ (genRecord i st).1.Interest_Rate ≤ 25 ∧
    (genRecord i st).1.Delay_from_due_date < 60 ∧
    6 ≤ (genRecord i st).1.Credit_History_Age ∧ (genRecord i st).1.Credit_History_Age < 300 := by
  simp only [genRecord]
  exact ⟨(npRandint_mem 18 80 st.np (by norm_num)).1, (npRandint_mem 18 80 st.np (by norm_num)).2,
    (bank_account_bounds (npS 2 st.np)).1, (bank_account_bounds (npS 2 st.np)).2,
    credit_card_bound (npS 3 st.np),
    (interest_round_mem (npS 6 st.np)).1, (interest_round_mem (npS 6 st.np)).2,
    delay_lt (npS 8 st.np),
    (npRandint_mem 6 300 (npS 4 st.np) (by norm_num)).1,
    (npRandint_mem 6 300 (npS 4 st.np) (by norm_num)).2⟩

theorem sameFields_refl (r : Record) : sameFields r r := by
  unfold sameFields
  refine ⟨rfl, rfl, rfl, rfl, rfl, rfl, rfl, rfl, rfl, rfl, rfl, rfl, rfl, rfl,
    rfl, rfl, rfl, rfl, rfl, rfl, rfl, rfl, rfl, rfl, rfl, rfl, rfl, rfl⟩

theorem row0_mem (st : GState) :
    (generate_credit_score_data 1 st).1.rows.getD 0 default ∈
      (generate_credit_score_data 1 st).1.rows := by
  have hlen : (generate_credit_score_data 1 st).1.rows.length = 1 := generateAux_length 1 0 st
  have h0 : 0 < (generate_credit_score_data 1 st).1.rows.length := by omega
  rw [List.getD_eq_getElem _ _ h0]
  exact List.getElem_mem h0

theorem generate_rows_eq (n : Nat) (st : GState) :
    (generate_credit_score_data n st).1.rows = (generateAux n 0 st).1 := by
  simp only [generate_credit_score_data]
  cases h : (generateAux n 0 st).1 <;> simp [pdDataFrame]

theorem generate_cols_eq (n : Nat) (st : GState) (hn : 1 ≤ n) :
    (generate_credit_score_data n st).1.cols = recordColumns := by
  obtain ⟨m, rfl⟩ : ∃ m, n = m + 1 := ⟨n - 1, by omega⟩
  simp only [generate_credit_score_data, generateAux, pdDataFrame]

/-- Claim C1, amended.  For every n and starting state the assembled table
has exactly n data rows; for n ≥ 1 its column set is the fixed 28-name list
in order; the n = 0 call completes and returns the empty row list, but the
column set is then empty rather than the 28 names, because pd.DataFrame
derives columns from the records and an empty record list yields none. -/
theorem credit_claim_c1 : ∀ (n : Nat) (st : GState),
    (generate_credit_score_data n st).1.rows.length = n ∧
    (1 ≤ n → (generate_credit_score_data n st).1.cols = recordColumns) ∧
    (n = 0 → (generate_credit_score_data n st).1.rows = [] ∧
      (generate_credit_score_data n st).1.cols = []) := by
  intro n st
  refine ⟨?_, fun hn => generate_cols_eq n st hn, fun hn => ?_⟩
  · rw [generate_rows_eq]
    exact generateAux_length n 0 st
  · subst hn
    exact ⟨rfl, rfl⟩

/-- Claim C1, counterexample to the frozen wording: at N = 0 the assembled
artifact does not carry the fixed column set — pd.DataFrame of an empty
record list has no columns at all, so the claimed header-only artifact with
the 28 fixed columns does not exist. -/
theorem credit_claim_c1_counterexample :
    (generate_credit_score_data 0 initState).1.cols ≠ recordColumns := by decide

/-- Claim C1 witness: at concrete inputs, one row gives the fixed columns
and zero rows give an empty table. -/
theorem credit_claim_c1_witness :
    (generate_credit_score_data 1 initState).1.cols = recordColumns ∧
    (generate_credit_score_data 0 initState).1.rows.length = 0 :=
  ⟨(credit_claim_c1 1 initState).2.1 (by norm_num), (credit_claim_c1 0 initState).1⟩

/-- Claim C2: the numeric score maps to Good at 70 and above, to Standard at
40 up to 70, and to Poor below 40; the label step either keeps that category
or replaces it by a draw from the three categories, so every record's
Credit_Score is one of Poor, Standard, Good. -/
theorem credit_claim_c2 :
    (∀ x : ℚ, 70 ≤ x → categorizeCreditScore x = "Good") ∧
    (∀ x : ℚ, 40 ≤ x → x < 70 → categorizeCreditScore x = "Standard") ∧
    (∀ x : ℚ, x < 40 → categorizeCreditScore x = "Poor") ∧
    (∀ (x : ℚ) (s : Nat), (creditScoreLabel x s).1 ∈ ["Poor", "Standard", "Good"]) ∧
    (∀ (n : Nat) (st : GState), ∀ r ∈ (generate_credit_score_data n st).1.rows,
      r.Credit_Score ∈ ["Poor", "Standard", "Good"]) := by
  refine ⟨?_, ?_, ?_, creditScoreLabel_mem, ?_⟩
  · intro x hx
    unfold categorizeCreditScore
    rw [if_pos hx]
  · intro x h1 h2
    unfold categorizeCreditScore
    rw [if_neg (not_le.mpr h2), if_pos h1]
  · intro x h
    unfold categorizeCreditScore
    rw [if_neg (not_le.mpr (lt_trans h (by norm_num))), if_neg (not_le.mpr h)]
  · intro n st r hr
    rw [generate_rows_eq] at hr
    exact generateAux_forall (fun r => r.Credit_Score ∈ ["Poor", "Standard", "Good"])
      genRecord_Credit_Score_mem n 0 st r hr

/-- Claim C2 witness: the mapping at the boundary scores 70, 40 and 0, and
membership for the first concretely generated record. -/
theorem credit_claim_c2_witness :
    categorizeCreditScore 70 = "Good" ∧ categorizeCreditScore 40 = "Standard" ∧
    categorizeCreditScore 0 = "Poor" ∧
    ((generate_credit_score_data 1 initState).1.rows.getD 0 default).Credit_Score ∈
      ["Poor", "Standard", "Good"] :=
  ⟨credit_claim_c2.1 70 (by norm_num), credit_claim_c2.2.1 40 (by norm_num) (by norm_num),
   credit_claim_c2.2.2.1 0 (by norm_num),
   credit_claim_c2.2.2.2.2 1 initState _ (row0_mem initState)⟩

/-- Claim C3: the numeric credit score is exactly the sum of the five
sub-scores — history/300 × 0.3, (1 − delay/60) × 0.25, the income-guarded
debt ratio × 0.2, the salary-guarded balance ratio × 0.15 and
(1 − delayedPayments/10) × 0.1 — times 100, plus the single noise draw. -/
theorem credit_claim_c3 :
    ∀ (h d : Nat) (debt inc bal sal : ℚ) (dp : Nat) (noise : ℚ),
      credit_score_numeric h d debt inc bal sal dp noise =
        ((h : ℚ) / 300 * 0.3 + (1 - (d : ℚ) / 60) * 0.25 +
          (if inc > 0 then (1 - debt / inc) * 0.2 else 0) +
          (if sal > 0 then bal / sal * 0.15 else 0) +
          (1 - (dp : ℚ) / 10) * 0.1) * 100 + noise := by
  intro h d debt inc bal sal dp noise
  simp only [credit_score_numeric, credit_score_factors, List.sum_cons, List.sum_nil]
  ring

/-- Claim C4: every generated record has Age in [18, 80), bank accounts in
1..5, credit cards in 0..5, Interest_Rate in [5, 25], delay-from-due-date in
0..59 and credit-history age in [6, 300). -/
theorem credit_claim_c4 :
    ∀ (n : Nat) (st : GState), ∀ r ∈ (generate_credit_score_data n st).1.rows,
      18 ≤ r.Age ∧ r.Age < 80 ∧
      1 ≤ r.Num_Bank_Accounts ∧ r.Num_Bank_Accounts ≤ 5 ∧
      r.Num_Credit_Card ≤ 5 ∧
      5 ≤ r.Interest_Rate ∧ r.Interest_Rate ≤ 25 ∧
      r.Delay_from_due_date < 60 ∧
      6 ≤ r.Credit_History_Age ∧ r.Credit_History_Age < 300 := by
  intro n st r hr
  rw [generate_rows_eq] at hr
  exact generateAux_forall (fun r =>
      18 ≤ r.Age ∧ r.Age < 80 ∧
      1 ≤ r.Num_Bank_Accounts ∧ r.Num_Bank_Accounts ≤ 5 ∧
      r.Num_Credit_Card ≤ 5 ∧
      5 ≤ r.Interest_Rate ∧ r.Interest_Rate ≤ 25 ∧
      r.Delay_from_due_date < 60 ∧
      6 ≤ r.Credit_History_Age ∧ r.Credit_History_Age < 300)
    genRecord_ranges n 0 st r hr

/-- Claim C4 witness: the bounds hold for the first concretely generated
record. -/
theorem credit_claim_c4_witness :
    18 ≤ ((generate_credit_score_data 1 initState).1.rows.getD 0 default).Age ∧
    ((generate_credit_score_data 1 initState).1.rows.getD 0 default).Age < 80 ∧
    1 ≤ ((generate_credit_score_data 1 initState).1.rows.getD 0 default).Num_Bank_Accounts ∧
    ((generate_credit_score_data 1 initState).1.rows.getD 0 default).Num_Bank_Accounts ≤ 5 ∧
    ((generate_credit_score_data 1 initState).1.rows.getD 0 default).Num_Credit_Card ≤ 5 ∧
    5 ≤ ((generate_credit_score_data 1 initState).1.rows.getD 0 default).Interest_Rate ∧
    ((generate_credit_score_data 1 initState).1.rows.getD 0 default).Interest_Rate ≤ 25 ∧
    ((generate_credit_score_data 1 initState).1.rows.getD 0 default).Delay_from_due_date < 60 ∧
    6 ≤ ((generate_credit_score_data 1 initState).1.rows.getD 0 default).Credit_History_Age ∧
    ((generate_credit_score_data 1 initState).1.rows.getD 0 default).Credit_History_Age < 300 :=
  credit_claim_c4 1 initState _ (row0_mem initState)

/-- Claim C5: a fresh-process assembler run is a function of the seed and
the row count alone, so two runs with equal seeds and equal counts return
identical DataFrames, and every pair of corresponding rows agrees on all 28
fields. -/
theorem credit_claim_c5 :
    ∀ (seed1 seed2 n1 n2 : Nat), seed1 = seed2 → n1 = n2 →
      runAssembler seed1 n1 = runAssembler seed2 n2 ∧
      ∀ (i : Nat) (d : Record),
        sameFields ((runAssembler seed1 n1).rows.getD i d) ((runAssembler seed2 n2).rows.getD i d) := by
  intro seed1 seed2 n1 n2 hs hn
  subst hs
  subst hn
  exact ⟨rfl, fun i d => sameFields_refl _⟩

/-- Claim C5 witness: the determinism theorem applied at seed 42 with five
rows. -/
theorem credit_claim_c5_witness :
    runAssembler 42 5 = runAssembler 42 5 ∧
    ∀ (i : Nat) (d : Record),
      sameFields ((runAssembler 42 5).rows.getD i d) ((runAssembler 42 5).rows.getD i d) :=
  credit_claim_c5 42 42 5 5 rfl rfl

/-- Claim C6: record generation is total — it always returns a record and a
successor state — and both guarded sub-scores short-circuit to 0 whenever
their denominator is not strictly positive (the third factor on income, the
fourth on salary). -/
theorem credit_claim_c6 :
    (∀ (h d : Nat) (debt inc bal sal : ℚ) (dp : Nat), ¬ inc > 0 →
      (credit_score_factors h d debt inc bal sal dp).getD 2 1 = 0) ∧
    (∀ (h d : Nat) (debt inc bal sal : ℚ) (dp : Nat), ¬ sal > 0 →
      (credit_score_factors h d debt inc bal sal dp).getD 3 1 = 0) ∧
    (∀ (i : Nat) (st : GState), ∃ (r : Record) (st' : GState), genRecord i st = (r, st')) := by
  refine ⟨?_, ?_, fun i st => ⟨(genRecord i st).1, (genRecord i st).2, rfl⟩⟩
  · intro h d debt inc bal sal dp hinc
    simp [credit_score_factors, List.getD_cons_succ, List.getD_cons_zero, hinc]
  · intro h d debt inc bal sal dp hsal
    simp [credit_score_factors, List.getD_cons_succ, List.getD_cons_zero, hsal]

/-- Claim C6 witness: with zero income and zero salary the two guarded
factors are 0 (the default 1 of getD shows the list entry itself is read). -/
theorem credit_claim_c6_witness :
    (credit_score_factors 0 0 5 0 0 0 0).getD 2 1 = 0 ∧
    (credit_score_factors 0 0 5 0 0 0 0).getD 3 1 = 0 :=
  ⟨credit_claim_c6.1 0 0 5 0 0 0 0 (by norm_num),
   credit_claim_c6.2.1 0 0 5 0 0 0 0 (by norm_num)⟩

/-- Claim C7: the script creates the missing output directory (with parents)
before writing, so with no physical I/O fault the CSV write always succeeds
regardless of the starting file system; a physical mkdir or write failure
propagates as the script's fatal error, with no retry or partial-success
path. -/
theorem credit_claim_c7 :
    ∀ (env : IOFaults) (fs : FileSys) (n : Nat) (st : GState),
      (env.mkdirFault = false → env.writeFault = false →
        mainScript env fs n st = Except.ok
          { dirs := (mkdirParents fs ["data", "raw"]).dirs,
            files := (["data", "raw", "credit_score_data.csv"],
              csvOf (generate_credit_score_data n st).1) :: (mkdirParents fs ["data", "raw"]).files }) ∧
      (env.mkdirFault = true → mainScript env fs n st = Except.error "mkdir failed") ∧
      (env.mkdirFault = false → env.writeFault = true →
        mainScript env fs n st = Except.error "write failed") := by
  intro env fs n st
  have hmem : (["data", "raw"] : List String) ∈ (mkdirParents fs ["data", "raw"]).dirs := by
    unfold mkdirParents
    exact List.mem_append_left _ (List.mem_map.mpr ⟨2, by simp, rfl⟩)
  refine ⟨fun h1 h2 => ?_, fun h1 => ?_, fun h1 h2 => ?_⟩
  · simp [mainScript, h1, h2, toCsvWrite, hmem]
  · simp [mainScript, h1]
  · simp [mainScript, h1, h2]

/-- Claim C7 witness: on an empty file system with no faults the script
writes the CSV under the freshly created directory. -/
theorem credit_claim_c7_witness :
    mainScript ⟨false, false⟩ ⟨[], []⟩ 0 initState = Except.ok
      { dirs := (mkdirParents ⟨[], []⟩ ["data", "raw"]).dirs,
        files := (["data", "raw", "credit_score_data.csv"],
          csvOf (generate_credit_score_data 0 initState).1) ::
            (mkdirParents ⟨[], []⟩ ["data", "raw"]).files } :=
  (credit_claim_c7 ⟨false, false⟩ ⟨[], []⟩ 0 initState).1 rfl rfl

/-- Claim C8: in the web layer's input preparation, a categorical column
whose fitted encoder rejects the submitted value (ValueError, modelled as
none) is silently given the neutral code 0 instead of propagating the error,
and the prepared row is still produced in full. -/
theorem credit_claim_c8 :
    ∀ (prep : String → Option (String → Option Int)) (row : String → String)
      (c : String) (e : String → Option Int),
      c ∈ categorical_columns → prep c = some e → e (row c) = none →
      (c, CellVal.num 0) ∈ prepare_input_data prep row ∧
      (prepare_input_data prep row).length = categorical_columns.length := by
  intro prep row c e hc hpc hrow
  constructor
  · unfold prepare_input_data
    exact List.mem_map.mpr ⟨c, hc, by simp [encode_cell, hpc, hrow]⟩
  · simp [prepare_input_data]

/-- Claim C8 witness: an Occupation encoder that rejects every value leads
to the neutral code 0 for an unseen occupation. -/
theorem credit_claim_c8_witness :
    ("Occupation", CellVal.num 0) ∈ prepare_input_data
      (fun c => if c = "Occupation" then some (fun _ => none) else none)
      (fun _ => "Astronaut") :=
  (credit_claim_c8 (fun c => if c = "Occupation" then some (fun _ => none) else none)
    (fun _ => "Astronaut") "Occupation" (fun _ => none) (by decide) (by simp) rfl).1

/-- Claim C9: row j carries ID CUS_0x(j+1 in zero-padded hex) and
Customer_ID CUS_(j+1 in zero-padded decimal); both formats are injective in
the row index, so distinct rows carry distinct identifiers. -/
theorem credit_claim_c9 :
    ∀ (n : Nat) (st : GState) (d : Record) (j k : Nat),
      j < n → k < n → j ≠ k →
      ((generate_credit_score_data n st).1.rows.getD j d).ID = mkID j ∧
      ((generate_credit_score_data n st).1.rows.getD j d).Customer_ID = mkCustomerID j ∧
      ((generate_credit_score_data n st).1.rows.getD j d).ID ≠
        ((generate_credit_score_data n st).1.rows.getD k d).ID ∧
      ((generate_credit_score_data n st).1.rows.getD j d).Customer_ID ≠
        ((generate_credit_score_data n st).1.rows.getD k d).Customer_ID := by
  intro n st d j k hj hk hjk
  obtain ⟨stj, hstj⟩ := generateAux_getD d n j 0 st hj
  obtain ⟨stk, hstk⟩ := generateAux_getD d n k 0 st hk
  have hjID : ((generate_credit_score_data n st).1.rows.getD j d).ID = mkID j := by
    rw [generate_rows_eq, hstj, genRecord_ID, Nat.zero_add]
  have hkID : ((generate_credit_score_data n st).1.rows.getD k d).ID = mkID k := by
    rw [generate_rows_eq, hstk, genRecord_ID, Nat.zero_add]
  have hjC : ((generate_credit_score_data n st).1.rows.getD j d).Customer_ID = mkCustomerID j := by
    rw [generate_rows_eq, hstj, genRecord_Customer_ID, Nat.zero_add]
  have hkC : ((generate_credit_score_data n st).1.rows.getD k d).Customer_ID = mkCustomerID k := by
    rw [generate_rows_eq, hstk, genRecord_Customer_ID, Nat.zero_add]
  refine ⟨hjID, hjC, ?_, ?_⟩
  · rw [hjID, hkID]
    intro h
    exact hjk (mkID_inj h)
  · rw [hjC, hkC]
    intro h
    exact hjk (mkCustomerID_inj h)

/-- Claim C9 witness: in a two-row table the first two rows carry the stated
identifier formats and differ in both identifiers. -/
theorem credit_claim_c9_witness :
    ((generate_credit_score_data 2 initState).1.rows.getD 0 default).ID = mkID 0 ∧
    ((generate_credit_score_data 2 initState).1.rows.getD 0 default).Customer_ID = mkCustomerID 0 ∧
    ((generate_credit_score_data 2 initState).1.rows.getD 0 default).ID ≠
      ((generate_credit_score_data 2 initState).1.rows.getD 1 default).ID ∧
    ((generate_credit_score_data 2 initState).1.rows.getD 0 default).Customer_ID ≠
      ((generate_credit_score_data 2 initState).1.rows.getD 1 default).Customer_ID :=
  credit_claim_c9 2 initState default 0 1 (by norm_num) (by norm_num) (by norm_num)

/-- Claim C10: generation reads and advances the ambient module-seeded
random state rather than taking a seed parameter — after one call from the
import-time state the ambient state has moved, a second call with the same N
from the advanced state returns different records (witnessed by the first
row's Name), and a fresh run from the import-time state reproduces itself
exactly. -/
theorem credit_claim_c10 :
    (generate_credit_score_data 1 initState).2.fk ≠ initState.fk ∧
    ((generate_credit_score_data 1 initState).1.rows.getD 0 default).Name ≠
      ((generate_credit_score_data 1
        ((generate_credit_score_data 1 initState).2)).1.rows.getD 0 default).Name ∧
    (∀ n : Nat, generate_credit_score_data n initState = generate_credit_score_data n initState) :=
  ⟨by decide, by decide, fun n => rfl⟩
